import Mathlib

/-!
Verification development for the streaming multi-provider chat relay.

The definitions below are a shallow embedding of the TypeScript source:
subscription tiers and model access (subscription-tiers), the IP rate limiter
and monthly message quota (rate-limiter), model-to-provider resolution and
the provider factory (lib/ai/index), request validation (lib/validation),
the three provider adapters (lib/ai/openai, lib/ai/anthropic, lib/ai/gemini),
and the chat POST route handler (app/api/chat/route).

Machine integers are modelled as Nat/Int (JavaScript numbers stay far below
2^53 here, so no overflow modelling is needed); clock reads (Date.now,
month-boundary timestamps) are passed as explicit parameters; the mutable
rate-limit map entry for one identifier is threaded as explicit state; code
paths that throw are modelled with Except/Option; upstream vendor streams
are modelled as explicit run traces consumed by the adapter loops.
-/

namespace AIChatbot

/-- Role of one conversation turn, as in lib/ai/types ChatMessage.role. -/
inductive Role
  | user
  | assistant
  | system
deriving DecidableEq, Repr

/-- One conversation turn (lib/ai/types ChatMessage). -/
structure ChatMessage where
  role : Role
  content : String
deriving DecidableEq, Repr

/-- Token accounting record (lib/ai/types TokenUsage). -/
structure TokenUsage where
  prompt_tokens : Nat
  completion_tokens : Nat
  total_tokens : Nat
deriving DecidableEq, Repr

/-- Subscription tier (types/database SubscriptionTier). -/
inductive SubscriptionTier
  | free
  | pro
  | enterprise
deriving DecidableEq, Repr

/-- Static tier configuration (subscription-tiers TierConfig). -/
structure TierConfig where
  name : String
  price : Nat
  messagesPerMonth : Int
  models : List String
  features : List String
deriving DecidableEq, Repr

/-- The TIERS table from subscription-tiers, copied verbatim. -/
def TIERS : SubscriptionTier → TierConfig
  | SubscriptionTier.free =>
    { name := "Free"
      price := 0
      messagesPerMonth := 50
      models := ["gpt-3.5-turbo", "gemini-pro", "gemini-2.0-flash"]
      features := ["basic_chat"] }
  | SubscriptionTier.pro =>
    { name := "Pro"
      price := 10
      messagesPerMonth := 1000
      models :=
        ["gpt-3.5-turbo", "gpt-4", "gpt-4o", "claude-3-sonnet-20240229",
         "claude-3-5-sonnet-20241022", "gemini-pro", "gemini-1.5-pro",
         "gemini-1.5-flash", "gemini-2.0-flash"]
      features := ["basic_chat", "chat_history", "export", "regenerate", "edit_message"] }
  | SubscriptionTier.enterprise =>
    { name := "Enterprise"
      price := 50
      messagesPerMonth := -1
      models :=
        ["gpt-3.5-turbo", "gpt-4", "gpt-4-turbo", "gpt-4o",
         "claude-3-haiku-20240307", "claude-3-sonnet-20240229",
         "claude-3-opus-20240229", "claude-3-5-sonnet-20241022",
         "gemini-pro", "gemini-1.5-pro", "gemini-1.5-flash", "gemini-2.0-flash"]
      features :=
        ["basic_chat", "chat_history", "export", "regenerate", "edit_message",
         "priority_support", "custom_models", "api_access"] }

/-- canAccessModel from subscription-tiers. -/
def canAccessModel (tier : SubscriptionTier) (model : String) : Bool :=
  (TIERS tier).models.contains model

/-- getMessageLimit from subscription-tiers. -/
def getMessageLimit (tier : SubscriptionTier) : Int :=
  (TIERS tier).messagesPerMonth

/-- isUnlimited from subscription-tiers. -/
def isUnlimited (tier : SubscriptionTier) : Bool :=
  (TIERS tier).messagesPerMonth == -1

/-! Rate limiter (lib/rate-limiter). The in-memory map entry for one
identifier is threaded explicitly; Date.now is the parameter now. -/

/-- IP_RATE_LIMIT constant: 100 requests. -/
def IP_RATE_LIMIT : Nat := 100

/-- IP_RATE_WINDOW constant: 15 minutes in milliseconds. -/
def IP_RATE_WINDOW : Nat := 15 * 60 * 1000

/-- One entry of ipRequestCounts for a single identifier. -/
structure IPRecord where
  count : Nat
  resetAt : Nat
deriving DecidableEq, Repr

/-- RateLimitResult from rate-limiter. -/
structure RateLimitResult where
  allowed : Bool
  remaining : Int
  limit : Int
  resetAt : Nat
  error : Option String
deriving DecidableEq, Repr

/-- checkIPRateLimit from rate-limiter, for a single identifier: takes the
current map entry (none when absent) and the clock, returns the result and
the updated map entry. -/
def checkIPRateLimit (record : Option IPRecord) (now : Nat) :
    RateLimitResult × IPRecord :=
  match record with
  | none =>
    (⟨true, (IP_RATE_LIMIT : Int) - 1, (IP_RATE_LIMIT : Int), now + IP_RATE_WINDOW, none⟩,
     ⟨1, now + IP_RATE_WINDOW⟩)
  | some r =>
    if now > r.resetAt then
      (⟨true, (IP_RATE_LIMIT : Int) - 1, (IP_RATE_LIMIT : Int), now + IP_RATE_WINDOW, none⟩,
       ⟨1, now + IP_RATE_WINDOW⟩)
    else if r.count ≥ IP_RATE_LIMIT then
      (⟨false, 0, (IP_RATE_LIMIT : Int), r.resetAt,
        some "Too many requests. Please try again later."⟩, r)
    else
      (⟨true, (IP_RATE_LIMIT : Int) - ((r.count + 1 : Nat) : Int), (IP_RATE_LIMIT : Int),
        r.resetAt, none⟩,
       ⟨r.count + 1, r.resetAt⟩)

/-- Successive checkIPRateLimit calls for one identifier: returns the list
of allowed flags and the final map entry. -/
def runIPCalls : Option IPRecord → List Nat → List Bool × Option IPRecord
  | st, [] => ([], st)
  | st, t :: rest =>
    let r := checkIPRateLimit st t
    let tail := runIPCalls (some r.2) rest
    (r.1.allowed :: tail.1, tail.2)

/-- checkMessageQuota from rate-limiter. The getMonthEndTimestamp clock read
is passed in as monthEnd (the first instant of the next calendar month). -/
def checkMessageQuota (tier : SubscriptionTier) (currentUsage : Nat)
    (monthEnd : Nat) : RateLimitResult :=
  if isUnlimited tier then
    ⟨true, -1, -1, monthEnd, none⟩
  else
    let limit := getMessageLimit tier
    let remaining := max 0 (limit - (currentUsage : Int))
    if (currentUsage : Int) ≥ limit then
      ⟨false, 0, limit, monthEnd,
       some ("Monthly message limit reached (" ++ toString limit ++
             " messages). Upgrade your plan for more.")⟩
    else
      ⟨true, remaining, limit, monthEnd, none⟩

/-! Provider factory (lib/ai/index). -/

/-- JavaScript String.prototype.toLowerCase, embedded character-wise over
the string data so that it evaluates inside the kernel. -/
def toLowerStr (s : String) : String :=
  String.mk (s.data.map Char.toLower)

/-- JavaScript String.prototype.startsWith, embedded as a character-list
test so that it evaluates inside the kernel. -/
def startsWithStr (s p : String) : Bool :=
  p.data.isPrefixOf s.data

/-- JavaScript String.prototype.trim, embedded as whitespace removal from
both ends of the character list. -/
def trimStr (s : String) : String :=
  String.mk ((((s.data.dropWhile Char.isWhitespace).reverse).dropWhile
    Char.isWhitespace).reverse)

/-- Provider tag (types/database AIProvider). -/
inductive AIProvider
  | openai
  | anthropic
  | google
deriving DecidableEq, Repr

/-- getProviderFromModel from lib/ai/index; the throw on an unknown model
is modelled as Except.error. -/
def getProviderFromModel (model : String) : Except String AIProvider :=
  let m := toLowerStr model
  if startsWithStr m ("gpt") || startsWithStr m ("o1") || startsWithStr m ("o3") then
    Except.ok AIProvider.openai
  else if startsWithStr m ("claude") then
    Except.ok AIProvider.anthropic
  else if startsWithStr m ("gemini") then
    Except.ok AIProvider.google
  else
    Except.error ("Unknown model: " ++ model)

/-- Whether the lowercased model name matches one of the recognized
model-name families of getProviderFromModel. -/
def hasKnownFamily (model : String) : Bool :=
  let m := toLowerStr model
  startsWithStr m ("gpt") || startsWithStr m ("o1") || startsWithStr m ("o3") ||
    startsWithStr m ("claude") || startsWithStr m ("gemini")

/-! Request validation (lib/validation). -/

/-- The aiModelSchema enumeration from lib/validation, copied verbatim. -/
def aiModelEnum : List String :=
  ["gpt-3.5-turbo", "gpt-4", "gpt-4-turbo", "gpt-4o",
   "claude-3-haiku-20240307", "claude-3-sonnet-20240229",
   "claude-3-opus-20240229", "claude-3-5-sonnet-20241022",
   "gemini-pro", "gemini-1.5-pro", "gemini-1.5-flash"]

/-- A raw message of the request body before validation. -/
structure RawMessage where
  role : String
  content : String
deriving DecidableEq, Repr

/-- The raw chat request body before validation. -/
structure RawChatRequest where
  messages : List RawMessage
  model : String
  chatId : Option String
deriving DecidableEq, Repr

/-- A validated chat request (zod chatRequestSchema output). -/
structure ChatRequest where
  messages : List ChatMessage
  model : String
  chatId : Option String
deriving DecidableEq, Repr

/-- Role enumeration check of chatMessageSchema. -/
def parseRole (r : String) : Option Role :=
  if r == "user" then some Role.user
  else if r == "assistant" then some Role.assistant
  else if r == "system" then some Role.system
  else none

/-- Content bounds of chatMessageSchema: min 1, max 32000 characters. -/
def validContent (s : String) : Bool :=
  1 ≤ s.length && s.length ≤ 32000

/-- Hex digit check used by the uuid shape test. -/
def isHexDigit (c : Char) : Bool :=
  c.isDigit || (('a' ≤ c && c ≤ 'f') || ('A' ≤ c && c ≤ 'F'))

/-- Shape test for uuidSchema: five dash-separated hex groups 8-4-4-4-12. -/
def isUuid (s : String) : Bool :=
  let parts := s.splitOn ("-")
  (parts.map String.length == [8, 4, 4, 4, 12]) &&
    parts.all (fun p => p.all isHexDigit)

/-- Conjunction of the chatRequestSchema checks: 1 to 100 messages, each
with an enumerated role and bounded non-empty content, an enumerated model
identifier, and an optional uuid chatId. -/
def chatRequestValid (r : RawChatRequest) : Bool :=
  (1 ≤ r.messages.length && r.messages.length ≤ 100) &&
    r.messages.all (fun m => (parseRole m.role).isSome && validContent m.content) &&
    aiModelEnum.contains r.model &&
    (match r.chatId with
     | none => true
     | some c => isUuid c)

/-- validateRequest applied to chatRequestSchema: parse or throw, modelled
as Except. -/
def validateChatRequest (r : RawChatRequest) : Except String ChatRequest :=
  if chatRequestValid r then
    Except.ok
      ⟨r.messages.map (fun m => ⟨(parseRole m.role).getD Role.user, m.content⟩),
       r.model, r.chatId⟩
  else
    Except.error "Validation failed"

/-! Provider adapters. Each streamChat is embedded as a function from the
conversation and an explicit vendor run trace to the ordered list of
callback invocations. A netCall marker records the point where the vendor
network request is issued. -/

/-- One callback invocation of StreamCallbacks, in emission order, plus a
marker for the vendor network call. -/
inductive AdapterEvent
  | netCall
  | token (text : String)
  | complete (fullContent : String) (usage : TokenUsage)
  | errorEv
deriving DecidableEq, Repr

/-- Whether an adapter event is a terminal callback (onComplete or onError). -/
def AdapterEvent.isTerminal : AdapterEvent → Bool
  | AdapterEvent.complete _ _ => true
  | AdapterEvent.errorEv => true
  | _ => false

/-- Concatenation of a list of strings, oldest first. -/
def concatList : List String → String
  | [] => ""
  | s :: rest => s ++ concatList rest

/-- The texts passed to onToken in a trace, in order. -/
def tokenTexts (trace : List AdapterEvent) : List String :=
  trace.filterMap fun e =>
    match e with
    | AdapterEvent.token t => some t
    | _ => none

/-- Concatenation of all onToken texts of a trace. -/
def tokenConcat (trace : List AdapterEvent) : String :=
  concatList (tokenTexts trace)

/-- Adapter streaming contract: zero or more non-terminal events, then
exactly one terminal callback, and an onComplete full text equal to the
concatenation of the onToken texts before it. -/
def adapterContractOK (trace : List AdapterEvent) : Prop :=
  ∃ pre, (∀ e ∈ pre, e.isTerminal = false) ∧
    (trace = pre ++ [AdapterEvent.errorEv] ∨
     ∃ u, trace = pre ++ [AdapterEvent.complete (tokenConcat pre) u])

/-- One chunk of the OpenAI streaming response: an optional content delta
and the optional usage carried by the last chunk. -/
structure OpenAIChunk where
  deltaContent : Option String
  usage : Option TokenUsage
deriving DecidableEq, Repr

/-- A run of the OpenAI upstream stream: the chunks delivered, ending
either normally or in a thrown vendor/network error. -/
inductive OpenAIRun
  | ok (chunks : List OpenAIChunk)
  | err (chunks : List OpenAIChunk)
deriving DecidableEq, Repr

/-- The for-await loop of OpenAIProvider.streamChat: emits onToken for each
non-empty delta, accumulates fullContent, and keeps the last reported
usage. -/
def openaiLoop : List OpenAIChunk → String → TokenUsage →
    List AdapterEvent × String × TokenUsage
  | [], full, u => ([], full, u)
  | c :: rest, full, u =>
    let content := c.deltaContent.getD ""
    if content == "" then
      openaiLoop rest full (c.usage.getD u)
    else
      let r := openaiLoop rest (full ++ content) (c.usage.getD u)
      (AdapterEvent.token content :: r.1, r.2)

/-- OpenAIProvider.streamChat: no pre-network validation; the request is
issued immediately and a thrown error anywhere inside the try block
surfaces as a single onError. -/
def OpenAIProvider.streamChat (_messages : List ChatMessage) (run : OpenAIRun) :
    List AdapterEvent :=
  match run with
  | OpenAIRun.ok chunks =>
    let r := openaiLoop chunks "" ⟨0, 0, 0⟩
    AdapterEvent.netCall :: r.1 ++ [AdapterEvent.complete r.2.1 r.2.2]
  | OpenAIRun.err chunks =>
    let r := openaiLoop chunks "" ⟨0, 0, 0⟩
    AdapterEvent.netCall :: r.1 ++ [AdapterEvent.errorEv]

/-- One event of the Anthropic upstream stream: a text delta of a content
block, or any other event type (ignored by the loop). -/
inductive AnthropicEvent
  | textDelta (text : String)
  | otherEvent
deriving DecidableEq, Repr

/-- Usage of the finalized Anthropic message. -/
structure AnthropicUsage where
  input_tokens : Nat
  output_tokens : Nat
deriving DecidableEq, Repr

/-- A run of the Anthropic upstream stream: the events delivered, ending
either with a finalized message carrying usage or in a thrown error. -/
inductive AnthropicRun
  | ok (events : List AnthropicEvent) (finalUsage : AnthropicUsage)
  | err (events : List AnthropicEvent)
deriving DecidableEq, Repr

/-- The for-await loop of AnthropicProvider.streamChat: every text delta
(including an empty one) is appended to fullContent and passed to onToken. -/
def anthropicLoop : List AnthropicEvent → String → List AdapterEvent × String
  | [], full => ([], full)
  | AnthropicEvent.textDelta t :: rest, full =>
    let r := anthropicLoop rest (full ++ t)
    (AdapterEvent.token t :: r.1, r.2)
  | AnthropicEvent.otherEvent :: rest, full => anthropicLoop rest full

/-- The system turn extraction of AnthropicProvider: content of the first
system turn, or empty. -/
def anthropicSystemMessage (messages : List ChatMessage) : String :=
  ((messages.find? (fun m => m.role == Role.system)).map ChatMessage.content).getD ""

/-- The conversation turns sent to Anthropic: all non-system turns. -/
def anthropicConversationMessages (messages : List ChatMessage) : List ChatMessage :=
  messages.filter (fun m => m.role != Role.system)

/-- AnthropicProvider.streamChat: no pre-network validation; system turns
are split out of the payload, usage comes from the finalized message. -/
def AnthropicProvider.streamChat (_messages : List ChatMessage) (run : AnthropicRun) :
    List AdapterEvent :=
  match run with
  | AnthropicRun.ok events fu =>
    let r := anthropicLoop events ""
    AdapterEvent.netCall :: r.1 ++
      [AdapterEvent.complete r.2
        ⟨fu.input_tokens, fu.output_tokens, fu.input_tokens + fu.output_tokens⟩]
  | AnthropicRun.err events =>
    let r := anthropicLoop events ""
    AdapterEvent.netCall :: r.1 ++ [AdapterEvent.errorEv]

/-- Usage metadata of a finalized Gemini response. -/
structure GoogleUsageMetadata where
  promptTokenCount : Option Nat
  candidatesTokenCount : Option Nat
  totalTokenCount : Option Nat
deriving DecidableEq, Repr

/-- A run of the Gemini upstream stream: the chunk texts delivered, ending
either normally with optional usage metadata or in a thrown error. -/
inductive GoogleRun
  | ok (chunks : List String) (usageMetadata : Option GoogleUsageMetadata)
  | err (chunks : List String)
deriving DecidableEq, Repr

/-- The for-await loop of GoogleProvider.streamChat: emits onToken for each
non-empty chunk text. -/
def googleLoop : List String → String → List AdapterEvent × String
  | [], full => ([], full)
  | c :: rest, full =>
    if c == "" then
      googleLoop rest full
    else
      let r := googleLoop rest (full ++ c)
      (AdapterEvent.token c :: r.1, r.2)

/-- The history sent to Gemini: all non-system turns except the last. -/
def googleHistory (messages : List ChatMessage) : List ChatMessage :=
  (messages.filter (fun m => m.role != Role.system)).dropLast

/-- The lastMessage of GoogleProvider.streamChat: the last non-system turn. -/
def googleLastMessage (messages : List ChatMessage) : Option ChatMessage :=
  (messages.filter (fun m => m.role != Role.system)).getLast?

/-- The pre-network check of GoogleProvider.streamChat: throw when the last
non-system turn is absent, or its content is empty or whitespace-only. -/
def googleRejects (messages : List ChatMessage) : Bool :=
  match googleLastMessage messages with
  | none => true
  | some m => m.content == "" || trimStr m.content == ""

/-- GoogleProvider.streamChat: the only adapter with a pre-network check;
on rejection the thrown error is caught by the surrounding try and
surfaces as a single onError with no network call. -/
def GoogleProvider.streamChat (messages : List ChatMessage) (run : GoogleRun) :
    List AdapterEvent :=
  if googleRejects messages then
    [AdapterEvent.errorEv]
  else
    match run with
    | GoogleRun.ok chunks meta =>
      let r := googleLoop chunks ""
      let usage : TokenUsage :=
        ⟨((meta.bind GoogleUsageMetadata.promptTokenCount).getD 0),
         ((meta.bind GoogleUsageMetadata.candidatesTokenCount).getD 0),
         ((meta.bind GoogleUsageMetadata.totalTokenCount).getD 0)⟩
      AdapterEvent.netCall :: r.1 ++ [AdapterEvent.complete r.2 usage]
    | GoogleRun.err chunks =>
      let r := googleLoop chunks ""
      AdapterEvent.netCall :: r.1 ++ [AdapterEvent.errorEv]

/-- Whether the turn sequence ends in a user turn with non-empty content. -/
def endsWithNonEmptyUser (messages : List ChatMessage) : Bool :=
  match messages.getLast? with
  | some m => m.role == Role.user && m.content != ""
  | none => false

/-- Whether the turn sequence, after removing system turns, has a trailing
user turn with non-empty content. -/
def hasTrailingNonEmptyUser (messages : List ChatMessage) : Bool :=
  match (messages.filter (fun m => m.role != Role.system)).getLast? with
  | some m => m.role == Role.user && m.content != ""
  | none => false

/-! Relay orchestrator (app/api/chat/route POST). The ReadableStream start
callback is embedded as a function from the adapter outcome and the
persistence environment to the ordered list of events enqueued for the
client, together with flags recording which persistence effects were
attempted. -/

/-- One server-sent event enqueued for the client. -/
inductive ClientEvent
  | token (text : String)
  | done (usage : TokenUsage)
  | errorEv (message : String)
deriving DecidableEq, Repr

/-- Whether a client event is terminal (done or error). -/
def ClientEvent.isTerminal : ClientEvent → Bool
  | ClientEvent.token _ => false
  | _ => true

/-- Outcomes of the external persistence and accounting calls made inside
the onComplete handler: whether the messages insert returns an error,
whether the chats timestamp update returns an error, and whether
incrementMessageCount throws. -/
structure PersistEnv where
  insertError : Bool
  updateError : Bool
  incrementThrows : Bool
deriving DecidableEq, Repr

/-- The terminal callback the adapter invokes on the orchestrator, per the
adapter streaming contract: onComplete with the full text and usage, or
onError. -/
inductive AdapterOutcome
  | completed (content : String) (usage : TokenUsage)
  | failed
deriving DecidableEq, Repr

/-- Result of the streaming phase: the events enqueued in order, and
whether the messages insert and the usage-ledger increment were attempted. -/
structure StreamResult where
  events : List ClientEvent
  insertAttempted : Bool
  incrementAttempted : Bool
deriving DecidableEq, Repr

/-- The onComplete handler of the POST route: with a chatId, an insert
error enqueues a persistence error event and returns before the usage
increment; a chats timestamp update error is only logged; a throw inside
the handler (modelled for incrementMessageCount) is caught and enqueues a
finalization error event; otherwise the done event with usage is enqueued.
Returns the enqueued events and the insert/increment attempt flags. -/
def onCompleteResult (chatId : Option String) (_content : String)
    (usage : TokenUsage) (env : PersistEnv) : List ClientEvent × Bool × Bool :=
  match chatId with
  | some _ =>
    if env.insertError then
      ([ClientEvent.errorEv "Failed to persist message"], true, false)
    else if env.incrementThrows then
      ([ClientEvent.errorEv "An internal error occurred while finalizing the response"],
       true, true)
    else
      ([ClientEvent.done usage], true, true)
  | none =>
    if env.incrementThrows then
      ([ClientEvent.errorEv "An internal error occurred while finalizing the response"],
       false, true)
    else
      ([ClientEvent.done usage], false, true)

/-- The ReadableStream start callback of the POST route: each onToken is
enqueued immediately in arrival order; the adapter terminal callback then
produces exactly one terminal event via onCompleteResult or the onError
branch. -/
def relayStream (chatId : Option String) (tokens : List String)
    (outcome : AdapterOutcome) (env : PersistEnv) : StreamResult :=
  let tokenEvents := tokens.map ClientEvent.token
  match outcome with
  | AdapterOutcome.failed =>
    ⟨tokenEvents ++
       [ClientEvent.errorEv "An internal error occurred while generating the response"],
     false, false⟩
  | AdapterOutcome.completed content usage =>
    let r := onCompleteResult chatId content usage env
    ⟨tokenEvents ++ r.1, r.2.1, r.2.2⟩

/-- External inputs of one POST request: the resolved client IP header, the
clock, the rate-limit map entry for that IP, the authenticated user, the
profile lookup (error, or the nullable subscription_tier column), the
current-period usage count, the month boundary timestamp, the parsed
request body (error models a JSON parse failure), availability of the
vendor API keys, and the behavior of the adapter stream and of
persistence. Content sanitization rewrites the outbound payload only and
does not affect any event below, so it is not modelled. -/
structure RouteEnv where
  ipHeader : Option String
  now : Nat
  ipRecord : Option IPRecord
  authUser : Option String
  profileTier : Except Unit (Option SubscriptionTier)
  messagesUsed : Nat
  monthEnd : Nat
  body : Except String RawChatRequest
  apiKeyPresent : AIProvider → Bool
  adapterTokens : List String
  adapterOutcome : AdapterOutcome
  persist : PersistEnv

/-- Result of the POST handler: a non-streaming JSON error response with a
status and optional Retry-After seconds, or the streaming response. -/
inductive RouteResult
  | jsonError (status : Nat) (retryAfter : Option Nat)
  | stream (result : StreamResult)
deriving DecidableEq, Repr

/-- The POST handler of app/api/chat/route: IP resolution, IP rate guard
(429 with Retry-After ceil((resetAt - now)/1000)), authentication (401),
profile lookup (500), message quota guard (429, no Retry-After header),
body parse and validation (400), tier model authorization (403), provider
resolution (a throw is caught by the outer try as 500), API key presence
(500), then the streaming response. -/
def postRoute (env : RouteEnv) : RouteResult :=
  match env.ipHeader with
  | none => RouteResult.jsonError 400 none
  | some _ =>
    let ipRes := (checkIPRateLimit env.ipRecord env.now).1
    if ipRes.allowed = false then
      RouteResult.jsonError 429 (some ((ipRes.resetAt - env.now + 999) / 1000))
    else
      match env.authUser with
      | none => RouteResult.jsonError 401 none
      | some _ =>
        match env.profileTier with
        | Except.error _ => RouteResult.jsonError 500 none
        | Except.ok tierOpt =>
          let tier := tierOpt.getD SubscriptionTier.free
          let quota := checkMessageQuota tier env.messagesUsed env.monthEnd
          if quota.allowed = false then
            RouteResult.jsonError 429 none
          else
            match env.body with
            | Except.error _ => RouteResult.jsonError 400 none
            | Except.ok raw =>
              match validateChatRequest raw with
              | Except.error _ => RouteResult.jsonError 400 none
              | Except.ok req =>
                if canAccessModel tier req.model = false then
                  RouteResult.jsonError 403 none
                else
                  match getProviderFromModel req.model with
                  | Except.error _ => RouteResult.jsonError 500 none
                  | Except.ok provider =>
                    if env.apiKeyPresent provider = false then
                      RouteResult.jsonError 500 none
                    else
                      RouteResult.stream
                        (relayStream req.chatId env.adapterTokens
                          env.adapterOutcome env.persist)

/-- A fully admitted request: guards pass, the body validates, the model
is permitted for the tier, the key is configured, and the adapter streams
two tokens then completes. -/
def admittedEnv : RouteEnv :=
  { ipHeader := some "198.51.100.4"
    now := 0
    ipRecord := none
    authUser := some "user-2"
    profileTier := Except.ok (some SubscriptionTier.free)
    messagesUsed := 0
    monthEnd := 5
    body := Except.ok ⟨[⟨"user", "Hello"⟩], "gpt-3.5-turbo", none⟩
    apiKeyPresent := fun _ => true
    adapterTokens := ["He", "llo"]
    adapterOutcome := AdapterOutcome.completed "Hello" ⟨1, 1, 2⟩
    persist := ⟨false, false, false⟩ }

/-- A request from a free-tier user whose monthly quota is exhausted. -/
def quotaDeniedEnv : RouteEnv :=
  { ipHeader := some "203.0.113.7"
    now := 0
    ipRecord := none
    authUser := some "user-1"
    profileTier := Except.ok (some SubscriptionTier.free)
    messagesUsed := 50
    monthEnd := 1000
    body := Except.ok ⟨[⟨"user", "Hello"⟩], "gpt-3.5-turbo", none⟩
    apiKeyPresent := fun _ => true
    adapterTokens := []
    adapterOutcome := AdapterOutcome.failed
    persist := ⟨false, false, false⟩ }

/-- A request whose IP already consumed the whole window ceiling. -/
def ipDeniedEnv : RouteEnv :=
  { ipHeader := some "198.51.100.9"
    now := 10
    ipRecord := some ⟨100, 50⟩
    authUser := none
    profileTier := Except.error ()
    messagesUsed := 0
    monthEnd := 0
    body := Except.error "unread"
    apiKeyPresent := fun _ => false
    adapterTokens := []
    adapterOutcome := AdapterOutcome.failed
    persist := ⟨false, false, false⟩ }

/-- An otherwise admitted request naming the tier-advertised model
gemini-2.0-flash. -/
def geminiFlashEnv : RouteEnv :=
  { ipHeader := some "192.0.2.5"
    now := 0
    ipRecord := none
    authUser := some "user-3"
    profileTier := Except.ok (some SubscriptionTier.enterprise)
    messagesUsed := 0
    monthEnd := 9
    body := Except.ok ⟨[⟨"user", "Hello"⟩], "gemini-2.0-flash", none⟩
    apiKeyPresent := fun _ => true
    adapterTokens := []
    adapterOutcome := AdapterOutcome.failed
    persist := ⟨false, false, false⟩ }

/-! Helper lemmas. -/

theorem tokenConcat_nil : tokenConcat [] = "" := rfl

theorem tokenConcat_token_cons (t : String) (l : List AdapterEvent) :
    tokenConcat (AdapterEvent.token t :: l) = t ++ tokenConcat l := rfl

theorem tokenConcat_netCall_cons (l : List AdapterEvent) :
    tokenConcat (AdapterEvent.netCall :: l) = tokenConcat l := rfl

/-- Invariant of the OpenAI streaming loop: the accumulated fullContent is
the starting accumulator followed by the concatenation of the emitted
onToken texts, and no emitted event is terminal. -/
theorem openaiLoop_spec (chunks : List OpenAIChunk) (full : String) (u : TokenUsage) :
    (openaiLoop chunks full u).2.1 = full ++ tokenConcat (openaiLoop chunks full u).1 ∧
      ∀ e ∈ (openaiLoop chunks full u).1, e.isTerminal = false := by
  induction chunks generalizing full u with
  | nil => simp [openaiLoop, tokenConcat_nil]
  | cons c rest ih =>
    by_cases h : c.deltaContent.getD "" == ""
    · simpa [openaiLoop, h] using ih full (c.usage.getD u)
    · have ih2 := ih (full ++ c.deltaContent.getD "") (c.usage.getD u)
      refine ⟨?_, ?_⟩
      · simp only [openaiLoop, h, if_false, Bool.false_eq_true, tokenConcat_token_cons]
        rw [ih2.1, String.append_assoc]
      · intro e he
        simp only [openaiLoop, h, if_false, Bool.false_eq_true, List.mem_cons] at he
        rcases he with rfl | he
        · rfl
        · exact ih2.2 e he

/-- Invariant of the Anthropic streaming loop. -/
theorem anthropicLoop_spec (events : List AnthropicEvent) (full : String) :
    (anthropicLoop events full).2 = full ++ tokenConcat (anthropicLoop events full).1 ∧
      ∀ e ∈ (anthropicLoop events full).1, e.isTerminal = false := by
  induction events generalizing full with
  | nil => simp [anthropicLoop, tokenConcat_nil]
  | cons ev rest ih =>
    cases ev with
    | textDelta t =>
      have ih2 := ih (full ++ t)
      refine ⟨?_, ?_⟩
      · simp only [anthropicLoop, tokenConcat_token_cons]
        rw [ih2.1, String.append_assoc]
      · intro e he
        simp only [anthropicLoop, List.mem_cons] at he
        rcases he with rfl | he
        · rfl
        · exact ih2.2 e he
    | otherEvent => simpa [anthropicLoop] using ih full

/-- Invariant of the Gemini streaming loop. -/
theorem googleLoop_spec (chunks : List String) (full : String) :
    (googleLoop chunks full).2 = full ++ tokenConcat (googleLoop chunks full).1 ∧
      ∀ e ∈ (googleLoop chunks full).1, e.isTerminal = false := by
  induction chunks generalizing full with
  | nil => simp [googleLoop, tokenConcat_nil]
  | cons c rest ih =>
    by_cases h : c == ""
    · simpa [googleLoop, h] using ih full
    · have ih2 := ih (full ++ c)
      refine ⟨?_, ?_⟩
      · simp only [googleLoop, h, if_false, Bool.false_eq_true, tokenConcat_token_cons]
        rw [ih2.1, String.append_assoc]
      · intro e he
        simp only [googleLoop, h, if_false, Bool.false_eq_true, List.mem_cons] at he
        rcases he with rfl | he
        · rfl
        · exact ih2.2 e he

/-- OpenAIProvider.streamChat satisfies the adapter streaming contract. -/
theorem openaiStreamChat_contract (messages : List ChatMessage) (run : OpenAIRun) :
    adapterContractOK (OpenAIProvider.streamChat messages run) := by
  cases run with
  | ok chunks =>
    have h := openaiLoop_spec chunks "" ⟨0, 0, 0⟩
    have h1 : (openaiLoop chunks "" ⟨0, 0, 0⟩).2.1 =
        tokenConcat (openaiLoop chunks "" ⟨0, 0, 0⟩).1 := by
      rw [h.1, String.empty_append]
    refine ⟨AdapterEvent.netCall :: (openaiLoop chunks "" ⟨0, 0, 0⟩).1, ?_, Or.inr
      ⟨(openaiLoop chunks "" ⟨0, 0, 0⟩).2.2, ?_⟩⟩
    · intro e he
      rcases List.mem_cons.mp he with rfl | he
      · rfl
      · exact h.2 e he
    · simp [OpenAIProvider.streamChat, tokenConcat_netCall_cons, h1]
  | err chunks =>
    have h := openaiLoop_spec chunks "" ⟨0, 0, 0⟩
    refine ⟨AdapterEvent.netCall :: (openaiLoop chunks "" ⟨0, 0, 0⟩).1, ?_, Or.inl ?_⟩
    · intro e he
      rcases List.mem_cons.mp he with rfl | he
      · rfl
      · exact h.2 e he
    · simp [OpenAIProvider.streamChat]

/-- AnthropicProvider.streamChat satisfies the adapter streaming contract. -/
theorem anthropicStreamChat_contract (messages : List ChatMessage) (run : AnthropicRun) :
    adapterContractOK (AnthropicProvider.streamChat messages run) := by
  cases run with
  | ok events fu =>
    have h := anthropicLoop_spec events ""
    have h1 : (anthropicLoop events "").2 = tokenConcat (anthropicLoop events "").1 := by
      rw [h.1, String.empty_append]
    refine ⟨AdapterEvent.netCall :: (anthropicLoop events "").1, ?_, Or.inr
      ⟨⟨fu.input_tokens, fu.output_tokens, fu.input_tokens + fu.output_tokens⟩, ?_⟩⟩
    · intro e he
      rcases List.mem_cons.mp he with rfl | he
      · rfl
      · exact h.2 e he
    · simp [AnthropicProvider.streamChat, tokenConcat_netCall_cons, h1]
  | err events =>
    have h := anthropicLoop_spec events ""
    refine ⟨AdapterEvent.netCall :: (anthropicLoop events "").1, ?_, Or.inl ?_⟩
    · intro e he
      rcases List.mem_cons.mp he with rfl | he
      · rfl
      · exact h.2 e he
    · simp [AnthropicProvider.streamChat]

/-- GoogleProvider.streamChat satisfies the adapter streaming contract. -/
theorem googleStreamChat_contract (messages : List ChatMessage) (run : GoogleRun) :
    adapterContractOK (GoogleProvider.streamChat messages run) := by
  by_cases hrej : googleRejects messages = true
  · refine ⟨[], by simp, Or.inl ?_⟩
    simp [GoogleProvider.streamChat, hrej]
  · rw [Bool.not_eq_true] at hrej
    cases run with
    | ok chunks meta =>
      have h := googleLoop_spec chunks ""
      have h1 : (googleLoop chunks "").2 = tokenConcat (googleLoop chunks "").1 := by
        rw [h.1, String.empty_append]
      refine ⟨AdapterEvent.netCall :: (googleLoop chunks "").1, ?_, Or.inr
        ⟨⟨((meta.bind GoogleUsageMetadata.promptTokenCount).getD 0),
          ((meta.bind GoogleUsageMetadata.candidatesTokenCount).getD 0),
          ((meta.bind GoogleUsageMetadata.totalTokenCount).getD 0)⟩, ?_⟩⟩
      · intro e he
        rcases List.mem_cons.mp he with rfl | he
        · rfl
        · exact h.2 e he
      · simp [GoogleProvider.streamChat, hrej, tokenConcat_netCall_cons, h1]
    | err chunks =>
      have h := googleLoop_spec chunks ""
      refine ⟨AdapterEvent.netCall :: (googleLoop chunks "").1, ?_, Or.inl ?_⟩
      · intro e he
        rcases List.mem_cons.mp he with rfl | he
        · rfl
        · exact h.2 e he
      · simp [GoogleProvider.streamChat, hrej]

/-- The onComplete handler enqueues exactly one terminal event. -/
theorem onCompleteResult_single_terminal (chatId : Option String) (content : String)
    (usage : TokenUsage) (env : PersistEnv) :
    ∃ t, ClientEvent.isTerminal t = true ∧
      (onCompleteResult chatId content usage env).1 = [t] := by
  cases chatId with
  | none =>
    by_cases h : env.incrementThrows = true
    · exact ⟨ClientEvent.errorEv "An internal error occurred while finalizing the response",
        rfl, by simp [onCompleteResult, h]⟩
    · rw [Bool.not_eq_true] at h
      exact ⟨ClientEvent.done usage, rfl, by simp [onCompleteResult, h]⟩
  | some cid =>
    by_cases h1 : env.insertError = true
    · exact ⟨ClientEvent.errorEv "Failed to persist message", rfl,
        by simp [onCompleteResult, h1]⟩
    · rw [Bool.not_eq_true] at h1
      by_cases h2 : env.incrementThrows = true
      · exact ⟨ClientEvent.errorEv "An internal error occurred while finalizing the response",
          rfl, by simp [onCompleteResult, h1, h2]⟩
      · rw [Bool.not_eq_true] at h2
        exact ⟨ClientEvent.done usage, rfl, by simp [onCompleteResult, h1, h2]⟩

theorem filter_isTerminal_map_token (l : List String) :
    (l.map ClientEvent.token).filter ClientEvent.isTerminal = [] := by
  induction l with
  | nil => rfl
  | cons t rest ih => simp [ClientEvent.isTerminal, ih]

/-- The streaming phase enqueues the token events in order followed by
exactly one terminal event. -/
theorem relayStream_single_terminal (chatId : Option String) (tokens : List String)
    (outcome : AdapterOutcome) (env : PersistEnv) :
    ∃ t, ClientEvent.isTerminal t = true ∧
      (relayStream chatId tokens outcome env).events =
        tokens.map ClientEvent.token ++ [t] ∧
      (relayStream chatId tokens outcome env).events.filter ClientEvent.isTerminal = [t] := by
  cases outcome with
  | failed =>
    refine ⟨ClientEvent.errorEv "An internal error occurred while generating the response",
      rfl, rfl, ?_⟩
    show ((tokens.map ClientEvent.token) ++ _).filter _ = _
    rw [List.filter_append, filter_isTerminal_map_token]
    rfl
  | completed content usage =>
    obtain ⟨t, ht, he⟩ := onCompleteResult_single_terminal chatId content usage env
    refine ⟨t, ht, ?_, ?_⟩
    · show (tokens.map ClientEvent.token) ++ (onCompleteResult chatId content usage env).1 = _
      rw [he]
    · show ((tokens.map ClientEvent.token) ++ (onCompleteResult chatId content usage env).1).filter _ = _
      rw [he, List.filter_append, filter_isTerminal_map_token, List.nil_append]
      simp [List.filter, ht]

/-- A call inside the current window with the counter below the ceiling is
allowed and increments the counter. -/
theorem checkIPRateLimit_increments (c R t : Nat) (h1 : t ≤ R) (h2 : c < IP_RATE_LIMIT) :
    checkIPRateLimit (some ⟨c, R⟩) t =
      (⟨true, (IP_RATE_LIMIT : Int) - ((c + 1 : Nat) : Int), (IP_RATE_LIMIT : Int), R, none⟩,
       ⟨c + 1, R⟩) := by
  simp only [checkIPRateLimit]
  rw [if_neg (by omega), if_neg (by omega)]

/-- A call inside the current window at or above the ceiling is denied and
leaves the entry unchanged. -/
theorem checkIPRateLimit_denies (c R t : Nat) (h1 : t ≤ R) (h2 : IP_RATE_LIMIT ≤ c) :
    checkIPRateLimit (some ⟨c, R⟩) t =
      (⟨false, 0, (IP_RATE_LIMIT : Int), R,
        some "Too many requests. Please try again later."⟩, ⟨c, R⟩) := by
  simp only [checkIPRateLimit]
  rw [if_neg (by omega), if_pos (by omega)]

/-- A call after the window reset time restarts the window with counter 1. -/
theorem checkIPRateLimit_resets (c R t : Nat) (h : R < t) :
    checkIPRateLimit (some ⟨c, R⟩) t =
      (⟨true, (IP_RATE_LIMIT : Int) - 1, (IP_RATE_LIMIT : Int), t + IP_RATE_WINDOW, none⟩,
       ⟨1, t + IP_RATE_WINDOW⟩) := by
  simp only [checkIPRateLimit]
  rw [if_pos (by omega)]

theorem runIPCalls_append (st : Option IPRecord) (l1 l2 : List Nat) :
    runIPCalls st (l1 ++ l2) =
      ((runIPCalls st l1).1 ++ (runIPCalls (runIPCalls st l1).2 l2).1,
       (runIPCalls (runIPCalls st l1).2 l2).2) := by
  induction l1 generalizing st with
  | nil => simp [runIPCalls]
  | cons t rest ih => simp [runIPCalls, ih]

/-- Calls inside the current window while the counter stays within the
ceiling are all allowed, each incrementing the counter. -/
theorem runIPCalls_within_window (ts : List Nat) (c R : Nat)
    (hlen : c + ts.length ≤ IP_RATE_LIMIT) (hts : ∀ t ∈ ts, t ≤ R) :
    runIPCalls (some ⟨c, R⟩) ts =
      (List.replicate ts.length true, some ⟨c + ts.length, R⟩) := by
  induction ts generalizing c with
  | nil => simp [runIPCalls]
  | cons t rest ih =>
    have h1 : t ≤ R := hts t (List.mem_cons_self t rest)
    have h2 : c < IP_RATE_LIMIT := by
      have := hlen
      simp only [List.length_cons] at this
      omega
    have ih2 := ih (c + 1)
      (by simp only [List.length_cons] at hlen; omega)
      (fun x hx => hts x (List.mem_cons_of_mem t hx))
    have h3 : c + 1 + rest.length = c + (rest.length + 1) := by omega
    simp only [runIPCalls, checkIPRateLimit_increments c R t h1 h2, ih2,
      List.length_cons, List.replicate_succ, h3]

/-! Claim theorems. -/

/-- Claim C5: for every tier with a finite ceiling, checkMessageQuota
returns allowed iff used is strictly below the ceiling, with remaining
equal to ceiling minus used when allowed and zero when denied; for a tier
configured unlimited (ceiling -1) it always allows with remaining -1,
regardless of used. -/
theorem checkMessageQuota_spec (tier : SubscriptionTier) (used monthEnd : Nat) :
    (isUnlimited tier = false →
      (((checkMessageQuota tier used monthEnd).allowed = true) ↔
        ((used : Int) < getMessageLimit tier)) ∧
      ((checkMessageQuota tier used monthEnd).allowed = true →
        (checkMessageQuota tier used monthEnd).remaining =
          getMessageLimit tier - (used : Int)) ∧
      ((checkMessageQuota tier used monthEnd).allowed = false →
        (checkMessageQuota tier used monthEnd).remaining = 0)) ∧
    (isUnlimited tier = true →
      (checkMessageQuota tier used monthEnd).allowed = true ∧
      (checkMessageQuota tier used monthEnd).remaining = -1) := by
  constructor
  · intro hfin
    by_cases h : (used : Int) ≥ getMessageLimit tier
    · simp only [checkMessageQuota, hfin, Bool.false_eq_true, if_false, if_pos h]
      refine ⟨by simp; omega, by simp, by simp⟩
    · simp only [checkMessageQuota, hfin, Bool.false_eq_true, if_false, if_neg h]
      refine ⟨by simp; omega, fun _ => ?_, by simp⟩
      show max 0 (getMessageLimit tier - (used : Int)) = _
      rw [max_eq_right (by omega)]
  · intro hunl
    simp [checkMessageQuota, hunl]

/-- Witness for C5: the free tier at 49 of 50 allows with remaining 1, at
50 denies with remaining 0; the enterprise tier allows far past any finite
ceiling with remaining -1. -/
theorem checkMessageQuota_spec_witness :
    (checkMessageQuota SubscriptionTier.free 49 0).allowed = true ∧
    (checkMessageQuota SubscriptionTier.free 49 0).remaining = 1 ∧
    (checkMessageQuota SubscriptionTier.free 50 0).allowed = false ∧
    (checkMessageQuota SubscriptionTier.free 50 0).remaining = 0 ∧
    (checkMessageQuota SubscriptionTier.enterprise 999999 0).allowed = true ∧
    (checkMessageQuota SubscriptionTier.enterprise 999999 0).remaining = -1 := by
  have h49 := checkMessageQuota_spec SubscriptionTier.free 49 0
  have h50 := checkMessageQuota_spec SubscriptionTier.free 50 0
  have hent := checkMessageQuota_spec SubscriptionTier.enterprise 999999 0
  have a49 : (checkMessageQuota SubscriptionTier.free 49 0).allowed = true :=
    ((h49.1 (by decide)).1).mpr (by decide)
  have d50 : (checkMessageQuota SubscriptionTier.free 50 0).allowed = false := by
    cases hb : (checkMessageQuota SubscriptionTier.free 50 0).allowed with
    | false => rfl
    | true => exact absurd (((h50.1 (by decide)).1).mp hb) (by decide)
  refine ⟨a49, ?_, d50, (h50.1 (by decide)).2.2 d50, (hent.2 (by decide)).1,
    (hent.2 (by decide)).2⟩
  have := (h49.1 (by decide)).2.1 a49
  rw [this]
  decide

/-- Claim C7: from a fresh window, exactly IP_RATE_LIMIT calls within the
window are allowed and the next call is denied; once a call arrives past
the window reset time the counter restarts from 1 and IP_RATE_LIMIT
further calls are allowed. -/
theorem checkIPRateLimit_window_behavior (t0 td t1 : Nat) (r1 r2 : List Nat)
    (h1 : r1.length = IP_RATE_LIMIT - 1)
    (h2 : ∀ t ∈ r1, t ≤ t0 + IP_RATE_WINDOW)
    (h3 : td ≤ t0 + IP_RATE_WINDOW)
    (h4 : t0 + IP_RATE_WINDOW < t1)
    (h5 : r2.length = IP_RATE_LIMIT - 1)
    (h6 : ∀ t ∈ r2, t ≤ t1 + IP_RATE_WINDOW) :
    (runIPCalls none (t0 :: (r1 ++ td :: t1 :: r2))).1 =
      List.replicate IP_RATE_LIMIT true ++ false :: List.replicate IP_RATE_LIMIT true ∧
    (runIPCalls none (t0 :: (r1 ++ [td, t1]))).2 =
      some ⟨1, t1 + IP_RATE_WINDOW⟩ := by
  have e0 : checkIPRateLimit none t0 =
      (⟨true, (IP_RATE_LIMIT : Int) - 1, (IP_RATE_LIMIT : Int), t0 + IP_RATE_WINDOW, none⟩,
       ⟨1, t0 + IP_RATE_WINDOW⟩) := rfl
  have hlen1 : 1 + r1.length ≤ IP_RATE_LIMIT := by
    simp only [IP_RATE_LIMIT] at h1 ⊢
    omega
  have e1 := runIPCalls_within_window r1 1 (t0 + IP_RATE_WINDOW) hlen1 h2
  have hc : IP_RATE_LIMIT ≤ 1 + r1.length := by
    simp only [IP_RATE_LIMIT] at h1 ⊢
    omega
  have e2 := checkIPRateLimit_denies (1 + r1.length) (t0 + IP_RATE_WINDOW) td h3 hc
  have e3 := checkIPRateLimit_resets (1 + r1.length) (t0 + IP_RATE_WINDOW) t1 h4
  have hlen2 : 1 + r2.length ≤ IP_RATE_LIMIT := by
    simp only [IP_RATE_LIMIT] at h5 ⊢
    omega
  have e4 := runIPCalls_within_window r2 1 (t1 + IP_RATE_WINDOW) hlen2 h6
  constructor
  · simp only [runIPCalls, e0, runIPCalls_append, e1, e2, e3, e4]
    rw [h1, h5]
    simp only [IP_RATE_LIMIT]
    rw [show (100 : Nat) = 99 + 1 from rfl, List.replicate_succ]
    simp [List.cons_append]
  · simp only [runIPCalls, e0, runIPCalls_append, e1, e2, e3]

/-- Witness for C7: a concrete schedule of 100 calls at time 0, one more
denied call, then a call past the window boundary followed by 99 further
calls, all within the new window. -/
theorem checkIPRateLimit_window_behavior_witness :
    (runIPCalls none (0 :: (List.replicate 99 0 ++ 0 :: (IP_RATE_WINDOW + 1) ::
        List.replicate 99 (IP_RATE_WINDOW + 1)))).1 =
      List.replicate IP_RATE_LIMIT true ++ false :: List.replicate IP_RATE_LIMIT true ∧
    (runIPCalls none (0 :: (List.replicate 99 0 ++ [0, IP_RATE_WINDOW + 1]))).2 =
      some ⟨1, (IP_RATE_WINDOW + 1) + IP_RATE_WINDOW⟩ :=
  checkIPRateLimit_window_behavior 0 0 (IP_RATE_WINDOW + 1)
    (List.replicate 99 0) (List.replicate 99 (IP_RATE_WINDOW + 1))
    (by simp [IP_RATE_LIMIT])
    (fun t ht => by have := List.eq_of_mem_replicate ht; omega)
    (Nat.zero_le _)
    (by omega)
    (by simp [IP_RATE_LIMIT])
    (fun t ht => by have := List.eq_of_mem_replicate ht; omega)

/-- Claim C9: getProviderFromModel resolves by case-insensitive prefix
match over the gpt/o1/o3, claude and gemini families, is total over the
enumerated model set, and returns an unknown-model error for any
identifier outside the recognized families, never a default vendor. -/
theorem getProviderFromModel_spec :
    (∀ m ∈ aiModelEnum, (getProviderFromModel m).isOk = true) ∧
    (∀ s : String, hasKnownFamily s = false →
      getProviderFromModel s = Except.error ("Unknown model: " ++ s)) ∧
    (∀ s1 s2 : String, toLowerStr s1 = toLowerStr s2 →
      (getProviderFromModel s1).toOption = (getProviderFromModel s2).toOption) := by
  refine ⟨by decide, ?_, ?_⟩
  · intro s h
    simp only [hasKnownFamily, Bool.or_eq_false_iff] at h
    obtain ⟨⟨⟨⟨hg, ho1⟩, ho3⟩, hc⟩, hgem⟩ := h
    simp [getProviderFromModel, hg, ho1, ho3, hc, hgem]
  · intro s1 s2 h
    simp only [getProviderFromModel, h]
    split_ifs <;> simp [Except.toOption]

/-- Witness for C9: gpt-4 is enumerated and resolves, llama-70b fails with
an unknown-model error, and resolution is insensitive to letter case. -/
theorem getProviderFromModel_spec_witness :
    (getProviderFromModel "gpt-4").isOk = true ∧
    getProviderFromModel "llama-70b" = Except.error ("Unknown model: " ++ "llama-70b") ∧
    (getProviderFromModel "GPT-4o").toOption = (getProviderFromModel "gpt-4o").toOption :=
  ⟨getProviderFromModel_spec.1 "gpt-4" (by decide),
   getProviderFromModel_spec.2.1 "llama-70b" (by decide),
   getProviderFromModel_spec.2.2 "GPT-4o" "gpt-4o" (by decide)⟩

/-- Claim C2: for every turn sequence ending in a non-empty user turn,
each of the three adapter streamChat implementations invokes exactly one
terminal callback (onComplete xor onError), and the concatenation of the
onToken texts, in emission order, equals the onComplete full text. -/
theorem adapters_single_terminal_and_concat (messages : List ChatMessage)
    (_h : endsWithNonEmptyUser messages = true)
    (runO : OpenAIRun) (runA : AnthropicRun) (runG : GoogleRun) :
    adapterContractOK (OpenAIProvider.streamChat messages runO) ∧
    adapterContractOK (AnthropicProvider.streamChat messages runA) ∧
    adapterContractOK (GoogleProvider.streamChat messages runG) :=
  ⟨openaiStreamChat_contract messages runO,
   anthropicStreamChat_contract messages runA,
   googleStreamChat_contract messages runG⟩

/-- Witness for C2 at a one-turn user conversation and concrete runs. -/
theorem adapters_single_terminal_and_concat_witness :
    adapterContractOK (OpenAIProvider.streamChat [⟨Role.user, "hi"⟩] (OpenAIRun.ok [])) ∧
    adapterContractOK (AnthropicProvider.streamChat [⟨Role.user, "hi"⟩]
      (AnthropicRun.err [])) ∧
    adapterContractOK (GoogleProvider.streamChat [⟨Role.user, "hi"⟩]
      (GoogleRun.ok ["hi there"] none)) :=
  adapters_single_terminal_and_concat [⟨Role.user, "hi"⟩] (by decide)
    (OpenAIRun.ok []) (AnthropicRun.err []) (GoogleRun.ok ["hi there"] none)

/-- Counterexample for C6: on a turn sequence with no trailing non-empty
user turn, the OpenAI adapter does not report failure before the network
call; its trace begins with the network call. -/
theorem openai_no_pre_network_validation_cex :
    hasTrailingNonEmptyUser [⟨Role.assistant, "hello"⟩] = false ∧
    OpenAIProvider.streamChat [⟨Role.assistant, "hello"⟩] (OpenAIRun.err []) =
      [AdapterEvent.netCall, AdapterEvent.errorEv] :=
  ⟨by decide, rfl⟩

/-- Amended C6: only the Google adapter validates before the network
call, rejecting via a single onError with zero token events and no
network call exactly when the last non-system turn is absent or has empty
or whitespace-only content, irrespective of its role; the OpenAI and
Anthropic adapters perform no pre-network validation and always begin
with the network call. -/
theorem adapters_pre_network_validation :
    (∀ (messages : List ChatMessage) (run : GoogleRun), googleRejects messages = true →
      GoogleProvider.streamChat messages run = [AdapterEvent.errorEv]) ∧
    (∀ (messages : List ChatMessage) (run : OpenAIRun),
      (OpenAIProvider.streamChat messages run).head? = some AdapterEvent.netCall) ∧
    (∀ (messages : List ChatMessage) (run : AnthropicRun),
      (AnthropicProvider.streamChat messages run).head? = some AdapterEvent.netCall) := by
  refine ⟨?_, ?_, ?_⟩
  · intro messages run h
    simp [GoogleProvider.streamChat, h]
  · intro messages run
    cases run <;> rfl
  · intro messages run
    cases run <;> rfl

/-- Witness for the amended C6 at concrete conversations and runs. -/
theorem adapters_pre_network_validation_witness :
    GoogleProvider.streamChat [⟨Role.user, "  "⟩] (GoogleRun.ok ["x"] none) =
      [AdapterEvent.errorEv] ∧
    (OpenAIProvider.streamChat [] (OpenAIRun.ok [])).head? = some AdapterEvent.netCall ∧
    (AnthropicProvider.streamChat [] (AnthropicRun.err [])).head? =
      some AdapterEvent.netCall :=
  ⟨adapters_pre_network_validation.1 [⟨Role.user, "  "⟩] (GoogleRun.ok ["x"] none)
      (by decide),
   adapters_pre_network_validation.2.1 [] (OpenAIRun.ok []),
   adapters_pre_network_validation.2.2 [] (AnthropicRun.err [])⟩

/-- Claim C4: when the adapter reports onError, the client receives the
already-relayed token events followed by exactly one terminal error event
and the stream closes; no message insert is attempted and the usage
ledger increment is never attempted. -/
theorem relayStream_onError (chatId : Option String) (tokens : List String)
    (env : PersistEnv) :
    relayStream chatId tokens AdapterOutcome.failed env =
      ⟨tokens.map ClientEvent.token ++
         [ClientEvent.errorEv "An internal error occurred while generating the response"],
       false, false⟩ := rfl

/-- Counterexample for C3: with a successful generation and a failing
messages insert, the client receives a terminal persistence error event
in place of the done event, and the usage increment is not attempted. -/
theorem relayStream_persist_failure_cex :
    (relayStream (some "123e4567-e89b-12d3-a456-426614174000") ["Hi"]
        (AdapterOutcome.completed "Hi" ⟨1, 2, 3⟩) ⟨true, false, false⟩).events =
      [ClientEvent.token "Hi", ClientEvent.errorEv "Failed to persist message"] ∧
    (relayStream (some "123e4567-e89b-12d3-a456-426614174000") ["Hi"]
        (AdapterOutcome.completed "Hi" ⟨1, 2, 3⟩) ⟨true, false, false⟩).events.contains
      (ClientEvent.done ⟨1, 2, 3⟩) = false ∧
    (relayStream (some "123e4567-e89b-12d3-a456-426614174000") ["Hi"]
        (AdapterOutcome.completed "Hi" ⟨1, 2, 3⟩) ⟨true, false, false⟩).incrementAttempted =
      false :=
  ⟨rfl, by decide, rfl⟩

/-- Amended C3: if the messages insert fails inside onComplete, the
client receives the relayed token events followed by a terminal
persistence error event instead of done, and the usage increment is not
attempted (the failure is logged server-side); only a failure of the
chats timestamp update leaves the client response and the accounting
unchanged, being merely logged. -/
theorem relayStream_persist_failure (cid : String) (tokens : List String)
    (content : String) (usage : TokenUsage) (env : PersistEnv) :
    (env.insertError = true →
      relayStream (some cid) tokens (AdapterOutcome.completed content usage) env =
        ⟨tokens.map ClientEvent.token ++
           [ClientEvent.errorEv "Failed to persist message"], true, false⟩) ∧
    (env.insertError = false → env.incrementThrows = false →
      relayStream (some cid) tokens (AdapterOutcome.completed content usage) env =
        ⟨tokens.map ClientEvent.token ++ [ClientEvent.done usage], true, true⟩) := by
  constructor
  · intro h1
    simp [relayStream, onCompleteResult, h1]
  · intro h1 h2
    simp [relayStream, onCompleteResult, h1, h2]

/-- Witness for the amended C3: a failing insert yields the persistence
error terminal without increment; a failing timestamp update alone leaves
done and the increment in place. -/
theorem relayStream_persist_failure_witness :
    relayStream (some "cid-1") ["He", "llo"]
        (AdapterOutcome.completed "Hello" ⟨1, 1, 2⟩) ⟨true, true, false⟩ =
      ⟨[ClientEvent.token "He", ClientEvent.token "llo",
        ClientEvent.errorEv "Failed to persist message"], true, false⟩ ∧
    relayStream (some "cid-1") ["He", "llo"]
        (AdapterOutcome.completed "Hello" ⟨1, 1, 2⟩) ⟨false, true, false⟩ =
      ⟨[ClientEvent.token "He", ClientEvent.token "llo", ClientEvent.done ⟨1, 1, 2⟩],
       true, true⟩ :=
  ⟨(relayStream_persist_failure "cid-1" ["He", "llo"] "Hello" ⟨1, 1, 2⟩
      ⟨true, true, false⟩).1 rfl,
   (relayStream_persist_failure "cid-1" ["He", "llo"] "Hello" ⟨1, 1, 2⟩
      ⟨false, true, false⟩).2 rfl rfl⟩

/-- Claim C1: every admitted chat request produces an event stream of
zero or more token events in generation order followed by exactly one
terminal event (done or error), with no event after it. -/
theorem postRoute_stream_single_terminal (env : RouteEnv) (r : StreamResult)
    (h : postRoute env = RouteResult.stream r) :
    ∃ t, ClientEvent.isTerminal t = true ∧
      r.events = env.adapterTokens.map ClientEvent.token ++ [t] ∧
      r.events.filter ClientEvent.isTerminal = [t] := by
  have hr : ∃ cid, r = relayStream cid env.adapterTokens env.adapterOutcome env.persist := by
    unfold postRoute at h
    simp only [] at h
    repeat' split at h
    all_goals
      first
        | (injection h with h2; exact ⟨_, h2.symm⟩)
        | exact RouteResult.noConfusion h
  obtain ⟨cid, rfl⟩ := hr
  exact relayStream_single_terminal cid env.adapterTokens env.adapterOutcome env.persist

/-- Witness for C1 at a concrete admitted request. -/
theorem postRoute_stream_single_terminal_witness :
    ∃ t, ClientEvent.isTerminal t = true ∧
      (⟨[ClientEvent.token "He", ClientEvent.token "llo", ClientEvent.done ⟨1, 1, 2⟩],
        false, true⟩ : StreamResult).events =
        admittedEnv.adapterTokens.map ClientEvent.token ++ [t] ∧
      (⟨[ClientEvent.token "He", ClientEvent.token "llo", ClientEvent.done ⟨1, 1, 2⟩],
        false, true⟩ : StreamResult).events.filter ClientEvent.isTerminal = [t] :=
  postRoute_stream_single_terminal admittedEnv
    ⟨[ClientEvent.token "He", ClientEvent.token "llo", ClientEvent.done ⟨1, 1, 2⟩],
     false, true⟩ rfl

/-- Counterexample for C8: a request denied by the message quota guard is
answered 429 with no Retry-After value, although the IP guard allowed it
and the quota guard computed its reset timestamp. -/
theorem route_quota_denial_no_retry_after_cex :
    (checkIPRateLimit quotaDeniedEnv.ipRecord quotaDeniedEnv.now).1.allowed = true ∧
    (checkMessageQuota SubscriptionTier.free quotaDeniedEnv.messagesUsed
      quotaDeniedEnv.monthEnd).allowed = false ∧
    postRoute quotaDeniedEnv = RouteResult.jsonError 429 none :=
  ⟨rfl, rfl, rfl⟩

/-- Amended C8: a 429 from the IP rate guard carries Retry-After seconds
equal to the ceiling of (resetAt - now)/1000, derived from the guard
reset timestamp; a 429 from the message quota guard carries no
Retry-After value at all, although that guard records the first instant
of the next calendar month in its resetAt field. -/
theorem route_429_retry_after (env : RouteEnv) (ip : String) :
    (env.ipHeader = some ip →
      (checkIPRateLimit env.ipRecord env.now).1.allowed = false →
      postRoute env = RouteResult.jsonError 429
        (some (((checkIPRateLimit env.ipRecord env.now).1.resetAt - env.now + 999) /
          1000))) ∧
    (∀ (uid : String) (tierOpt : Option SubscriptionTier),
      env.ipHeader = some ip →
      (checkIPRateLimit env.ipRecord env.now).1.allowed = true →
      env.authUser = some uid →
      env.profileTier = Except.ok tierOpt →
      (checkMessageQuota (tierOpt.getD SubscriptionTier.free) env.messagesUsed
        env.monthEnd).allowed = false →
      postRoute env = RouteResult.jsonError 429 none) ∧
    (∀ (tier : SubscriptionTier) (used m : Nat),
      (checkMessageQuota tier used m).resetAt = m) := by
  refine ⟨?_, ?_, ?_⟩
  · intro hip hdeny
    unfold postRoute
    rw [hip]
    simp [hdeny]
  · intro uid tierOpt hip hall hauth hprof hq
    unfold postRoute
    rw [hip]
    simp [hall, hauth, hprof, hq]
  · intro tier used m
    simp only [checkMessageQuota]
    split_ifs <;> rfl

/-- Witness for the amended C8 at the concrete denied requests. -/
theorem route_429_retry_after_witness :
    postRoute ipDeniedEnv = RouteResult.jsonError 429
      (some (((checkIPRateLimit ipDeniedEnv.ipRecord ipDeniedEnv.now).1.resetAt -
        ipDeniedEnv.now + 999) / 1000)) ∧
    postRoute quotaDeniedEnv = RouteResult.jsonError 429 none ∧
    (checkMessageQuota SubscriptionTier.free 0 777).resetAt = 777 :=
  ⟨(route_429_retry_after ipDeniedEnv "198.51.100.9").1 rfl rfl,
   (route_429_retry_after quotaDeniedEnv "203.0.113.7").2.1 "user-1"
     (some SubscriptionTier.free) rfl rfl rfl rfl rfl,
   (route_429_retry_after quotaDeniedEnv "203.0.113.7").2.2 SubscriptionTier.free 0 777⟩

/-- Claim C10: gemini-2.0-flash is in the allowed-model list of every
subscription tier yet absent from the validated model enumeration, so
every request naming it is rejected as a 400 validation failure before
model authorization or provider construction is reached. -/
theorem geminiFlash_unreachable :
    (canAccessModel SubscriptionTier.free "gemini-2.0-flash" = true ∧
     canAccessModel SubscriptionTier.pro "gemini-2.0-flash" = true ∧
     canAccessModel SubscriptionTier.enterprise "gemini-2.0-flash" = true) ∧
    aiModelEnum.contains "gemini-2.0-flash" = false ∧
    (∀ (env : RouteEnv) (raw : RawChatRequest) (ip uid : String)
      (tierOpt : Option SubscriptionTier),
      env.ipHeader = some ip →
      (checkIPRateLimit env.ipRecord env.now).1.allowed = true →
      env.authUser = some uid →
      env.profileTier = Except.ok tierOpt →
      (checkMessageQuota (tierOpt.getD SubscriptionTier.free) env.messagesUsed
        env.monthEnd).allowed = true →
      env.body = Except.ok raw →
      raw.model = "gemini-2.0-flash" →
      postRoute env = RouteResult.jsonError 400 none) := by
  refine ⟨by decide, by decide, ?_⟩
  intro env raw ip uid tierOpt hip hall hauth hprof hq hbody hmodel
  have hm : aiModelEnum.contains raw.model = false := by
    rw [hmodel]
    decide
  have hval : validateChatRequest raw = Except.error "Validation failed" := by
    unfold validateChatRequest chatRequestValid
    rw [hm]
    simp
  unfold postRoute
  rw [hip]
  simp [hall, hauth, hprof, hq, hbody, hval]

/-- Witness for C10 at a concrete enterprise request naming the model. -/
theorem geminiFlash_unreachable_witness :
    postRoute geminiFlashEnv = RouteResult.jsonError 400 none :=
  geminiFlash_unreachable.2.2 geminiFlashEnv
    ⟨[⟨"user", "Hello"⟩], "gemini-2.0-flash", none⟩ "192.0.2.5" "user-3"
    (some SubscriptionTier.enterprise) rfl rfl rfl rfl rfl rfl rfl

end AIChatbot
